import Mathlib

/-!
Verification of the printer connectivity layer of the nextjs-pwa-webusb-printer
repository: a shallow embedding of `src/utils/PrinterManager.ts`, the four
connection classes (`USBConnection`, `NetworkConnection`, `BluetoothConnection`,
`APIConnection`) and the relay in `src/proxy-server.js`, together with theorems
settling the frozen claims about the spec.

Maps (`Map<string, ...>` in the source) are embedded as association lists with
JavaScript `Map.set` semantics: `set` replaces an existing binding in place and
otherwise appends. Asynchronous interleaving points (the `await` inside
`connectPrinter`) are embedded by splitting the method at the `await` into two
step functions on an explicit manager state.
-/

/-- Association-list lookup, embedding `Map.get` (first binding wins; a
well-formed JS map has no duplicate keys). -/
def lookupA {α : Type} (m : List (String × α)) (k : String) : Option α :=
  match m.find? (fun p => p.fst = k) with
  | some p => some p.snd
  | none => none

/-- Association-list update, embedding JS `Map.set`: replace the binding in
place when the key is present, otherwise append. -/
def setA {α : Type} (m : List (String × α)) (k : String) (v : α) : List (String × α) :=
  if m.any (fun p => p.fst = k) then
    m.map (fun p => if p.fst = k then (k, v) else p)
  else
    m ++ [(k, v)]

/-- Association-list removal, embedding JS `Map.delete`. -/
def deleteA {α : Type} (m : List (String × α)) (k : String) : List (String × α) :=
  m.filter (fun p => p.fst ≠ k)

/-- The four transport kinds of `PrinterConnectionType` in `types/printer.ts`. -/
inductive PrinterConnectionType where
  | usb
  | network
  | bluetooth
  | api
deriving DecidableEq, Repr

/-- String form of a transport kind, as it appears in generated ids. -/
def PrinterConnectionType.str : PrinterConnectionType → String
  | .usb => "usb"
  | .network => "network"
  | .bluetooth => "bluetooth"
  | .api => "api"

/-- The `status` field of `PrinterDevice` in `types/printer.ts`. -/
inductive PStatus where
  | connected
  | disconnected
  | connecting
  | error
deriving DecidableEq, Repr

/-- The `PrinterConfig` interface of `types/printer.ts`: common fields plus
optional per-transport fields. -/
structure PrinterConfig where
  name : String
  type : PrinterConnectionType
  paperWidth : Option Nat := none
  vendorId : Option Nat := none
  productId : Option Nat := none
  ipAddress : Option String := none
  port : Option Nat := none
  bluetoothId : Option String := none
  apiEndpoint : Option String := none
  apiKey : Option String := none
deriving DecidableEq, Repr

/-- The `PrinterDevice` interface of `types/printer.ts` (`lastUsed` is a
timestamp, embedded as a natural number). -/
structure PrinterDevice where
  id : String
  name : String
  type : PrinterConnectionType
  status : PStatus
  lastUsed : Option Nat := none
  config : PrinterConfig
deriving DecidableEq, Repr

/-- The `status` field of `PrintJob` in `types/printer.ts`. -/
inductive JobStatus where
  | pending
  | printing
  | completed
  | failed
deriving DecidableEq, Repr

/-- The `PrintJob` interface of `types/printer.ts` (payload bytes as a list of
naturals, timestamp as a natural). -/
structure PrintJob where
  id : String
  printerId : String
  data : List Nat
  timestamp : Nat
  status : JobStatus
  error : Option String := none
deriving DecidableEq, Repr

/-- A connection object created by `createConnection`.  Each is identified by a
serial number `sid`; `live` embeds its `isConnectedFlag` (set by a successful
`connect`, cleared by `disconnect`). -/
structure SessionRec where
  sid : Nat
  printerId : String
  live : Bool
deriving DecidableEq, Repr

/-- The mutable state of a `PrinterManager` instance: `printers` and
`connections` are the two `Map`s, `activePrinterId` and `printQueue` the other
fields.  `connections` maps a printer id to the serial number of the connection
object currently stored for it; `sessions` records every connection object
created so far with its liveness, and `nextSession` is the next serial number
(so `nextSession` counts how many connection objects were ever created). -/
structure MState where
  printers : List (String × PrinterDevice)
  connections : List (String × Nat)
  activePrinterId : Option String
  printQueue : List PrintJob
  sessions : List SessionRec
  nextSession : Nat
deriving DecidableEq, Repr

/-- The manager state at construction time (before `loadSavedPrinters`). -/
def MState.empty : MState :=
  { printers := [], connections := [], activePrinterId := none,
    printQueue := [], sessions := [], nextSession := 0 }

/-- Liveness of the connection object with serial `sid` (its
`isConnected()`). -/
def sessionLive (s : List SessionRec) (sid : Nat) : Bool :=
  match s.find? (fun r => r.sid = sid) with
  | some r => r.live
  | none => false

/-- Set the liveness flag of one connection object. -/
def setSessionLive (s : List SessionRec) (sid : Nat) (b : Bool) : List SessionRec :=
  s.map (fun r => if r.sid = sid then { r with live := b } else r)

/-- Number of live connection objects bound to one printer id. -/
def liveSessionsFor (m : MState) (id : String) : Nat :=
  (m.sessions.filter (fun r => r.printerId = id && r.live)).length

/-! ## Connection Registry operations (`PrinterManager`) -/

/-- Embeds `PrinterManager.addPrinter`: builds the id from the transport kind,
`Date.now()` and the random token, inserts a new `PrinterDevice` with status
`disconnected`, and returns the id.  The source performs no validation of the
config. -/
def addPrinter (m : MState) (config : PrinterConfig) (now : Nat) (rand : String) :
    String × MState :=
  let id := config.type.str ++ "_" ++ toString now ++ "_" ++ rand
  let printer : PrinterDevice :=
    { id := id, name := config.name, type := config.type,
      status := .disconnected, config := config }
  (id, { m with printers := setA m.printers id printer })

/-- Result of the synchronous prefix of `PrinterManager.connectPrinter` (up to
the `await connection.connect()`). -/
inductive ConnectStart where
  | notFound
  | alreadyConnected
  | started (sid : Nat)
deriving DecidableEq, Repr

/-- Embeds `connectPrinter` up to its `await`: throw `Printer not found` when
the id is unregistered; return early when `status === connected`; otherwise set
status to `connecting` and create a fresh connection object via
`createConnection` (not yet connected, hence not live). -/
def connectStep1 (m : MState) (id : String) : ConnectStart × MState :=
  match lookupA m.printers id with
  | none => (.notFound, m)
  | some p =>
    if p.status = .connected then
      (.alreadyConnected, m)
    else
      let sid := m.nextSession
      (.started sid,
        { m with
          printers := setA m.printers id { p with status := .connecting },
          sessions := m.sessions ++ [{ sid := sid, printerId := id, live := false }],
          nextSession := m.nextSession + 1 })

/-- Embeds `connectPrinter` after its `await`: on success the connection object
becomes live, is stored in `connections`, and the printer becomes `connected`
with `lastUsed` updated; on failure the printer status becomes `error` and the
error is rethrown. -/
def connectStep2 (m : MState) (id : String) (sid : Nat) (connectOk : Bool) (now : Nat) :
    MState :=
  match lookupA m.printers id with
  | none => m
  | some p =>
    if connectOk then
      { m with
        sessions := setSessionLive m.sessions sid true,
        connections := setA m.connections id sid,
        printers := setA m.printers id { p with status := .connected, lastUsed := some now } }
    else
      { m with printers := setA m.printers id { p with status := .error } }

/-- Embeds `connectPrinter` as one atomic call (no interleaving between the two
phases): the outcome of the transport `connect()` is the parameter
`connectOk`. -/
def connectPrinter (m : MState) (id : String) (connectOk : Bool) (now : Nat) : MState :=
  match connectStep1 m id with
  | (.started sid, m1) => connectStep2 m1 id sid connectOk now
  | (_, m1) => m1

/-- Embeds `PrinterManager.disconnectPrinter`.  The body runs only when both
the printer and a connection object are present; the transport `disconnect()`
may itself fail (`dcOk = false`) but the exception is caught (`console.error`)
and the method proceeds identically. -/
def disconnectPrinter (m : MState) (id : String) (dcOk : Bool) : MState :=
  match lookupA m.printers id, lookupA m.connections id with
  | some p, some sid =>
    let _ := dcOk
    { m with
      printers := setA m.printers id { p with status := .disconnected },
      connections := deleteA m.connections id,
      sessions := setSessionLive m.sessions sid false }
  | _, _ => m

/-- Embeds `PrinterManager.loadSavedPrinters`: every record parsed from
storage has its `status` overwritten with `disconnected` before being inserted
into the `printers` map. -/
def loadSavedPrinters (saved : List PrinterDevice) : List (String × PrinterDevice) :=
  saved.foldl (fun acc p => setA acc p.id { p with status := .disconnected }) []

/-! ## Dispatch (`PrinterManager.print`, `getPrintQueue`) -/

/-- Outcome of one `print` call: the thrown-or-returned result, the manager
state afterwards, the sequence of `job.status` assignments made to the job of
this call (in program order, starting with its initial `pending`), and how many
times the transport driver's `print` was invoked. -/
structure PrintOutcome where
  result : Except String String
  state : MState
  trace : List JobStatus
  driverCalls : Nat
deriving Repr

/-- Target resolution in `print`: `printerId || this.activePrinterId`. -/
def resolveTarget (m : MState) (printerId : Option String) : Option String :=
  match printerId with
  | some t => some t
  | none => m.activePrinterId

/-- Replace the status (and error) of the job with the given id in the
queue. -/
def setJobStatus (q : List PrintJob) (jobId : String) (st : JobStatus)
    (err : Option String) : List PrintJob :=
  q.map (fun j => if j.id = jobId then { j with status := st, error := err } else j)

/-- Embeds `PrinterManager.print`: resolve the target id (throwing `No printer
selected` when none), require a registered printer and stored connection
(`Printer not found or not connected`), require `connection.isConnected()`
(`Printer not connected`); only then create the job in `pending`, push it, set
it `printing`, invoke the driver once (its outcome is the parameter
`driverResult`), and finish the job as `completed` or `failed` accordingly. -/
def printOp (m : MState) (data : List Nat) (printerId : Option String)
    (now : Nat) (rand : String) (driverResult : Except String Unit) : PrintOutcome :=
  match resolveTarget m printerId with
  | none => ⟨.error "No printer selected", m, [], 0⟩
  | some targetId =>
    match lookupA m.printers targetId, lookupA m.connections targetId with
    | some printer, some sid =>
      if sessionLive m.sessions sid then
        let jobId := "job_" ++ toString now ++ "_" ++ rand
        let job : PrintJob :=
          { id := jobId, printerId := targetId, data := data,
            timestamp := now, status := .pending }
        let m1 := { m with printQueue := m.printQueue ++ [job] }
        match driverResult with
        | .ok _ =>
          ⟨.ok jobId,
            { m1 with
              printQueue := setJobStatus m1.printQueue jobId .completed none,
              printers := setA m1.printers targetId { printer with lastUsed := some now } },
            [.pending, .printing, .completed], 1⟩
        | .error e =>
          ⟨.error e,
            { m1 with printQueue := setJobStatus m1.printQueue jobId .failed (some e) },
            [.pending, .printing, .failed], 1⟩
      else
        ⟨.error "Printer not connected", m, [], 0⟩
    | _, _ => ⟨.error "Printer not found or not connected", m, [], 0⟩

/-- Rank of a job status in its lifecycle order (used to state that a job's
status never regresses). -/
def JobStatus.rank : JobStatus → Nat
  | .pending => 0
  | .printing => 1
  | .completed => 2
  | .failed => 2

/-- Embeds `PrinterManager.getPrintQueue` under an explicit array-reference
model: JS arrays are heap objects, the manager's `printQueue` field holds a
reference, and `return [...this.printQueue]` allocates a fresh array holding a
copy of the queue's elements and returns the fresh reference. -/
def getPrintQueueRef (heap : List (List PrintJob)) (qref : Nat) :
    List (List PrintJob) × Nat :=
  (heap ++ [((heap.get? qref).getD [])], heap.length)

/-- Read an array reference in the heap model. -/
def readRef (heap : List (List PrintJob)) (r : Nat) : List PrintJob :=
  (heap.get? r).getD []

/-- Overwrite an array reference's contents in the heap model (any in-place
mutation of the array — push, splice, assignment — is an instance). -/
def writeRef (heap : List (List PrintJob)) (r : Nat) (v : List PrintJob) :
    List (List PrintJob) :=
  heap.set r v

/-! ## Transport drivers -/

/-- State of the exclusive USB resources of one `USBPrinterConnection` attempt:
whether the device handle is open and which interface numbers are claimed. -/
structure USBDeviceState where
  opened : Bool
  claimed : List Nat
deriving DecidableEq, Repr

/-- The claim loop of `USBPrinterConnection.connect`: try each candidate
interface number in order, commit to the first whose `claimInterface`
succeeds. -/
def tryClaimList (claimOk : Nat → Bool) (dev : USBDeviceState) :
    List Nat → Option Nat × USBDeviceState
  | [] => (none, dev)
  | n :: rest =>
    if claimOk n then (some n, { dev with claimed := dev.claimed ++ [n] })
    else tryClaimList claimOk dev rest

/-- Embeds `USBPrinterConnection.connect` from the point where
`device.open()` succeeded (so the handle is held): candidate interfaces from
`device.configuration.interfaces` that are not already claimed are probed in
order, then the fallback numbers 0, 1, 2; if nothing can be claimed the method
throws `Could not claim any interface`.  The returned `USBDeviceState` records
the transport resources still held when the method exits — the source has no
`device.close()` on the failure path. -/
def usbConnect (ifaces : List (Nat × Bool)) (claimOk : Nat → Bool) :
    Except String Unit × USBDeviceState :=
  let dev0 : USBDeviceState := { opened := true, claimed := [] }
  let candidates := (ifaces.filter (fun p => !p.snd)).map (fun p => p.fst)
  match tryClaimList claimOk dev0 candidates with
  | (some _, dev1) => (.ok (), dev1)
  | (none, dev1) =>
    match tryClaimList claimOk dev1 [0, 1, 2] with
    | (some _, dev2) => (.ok (), dev2)
    | (none, dev2) => (.error "Could not claim any interface", dev2)

/-- The chunk loop of `BluetoothPrinterConnection.print`:
`for (let i = 0; i < data.length; i += chunkSize) data.slice(i, i + chunkSize)`.
A chunk size of zero never occurs in the source (it is the constant 20). -/
def chunkList (c : Nat) (l : List Nat) : List (List Nat) :=
  if h : l = [] ∨ c = 0 then []
  else l.take c :: chunkList c (l.drop c)
termination_by l.length
decreasing_by
  push_neg at h
  have hl : l.length ≠ 0 := fun h0 => h.1 (List.length_eq_zero.mp h0)
  simpa using Nat.sub_lt (Nat.pos_of_ne_zero hl) (Nat.pos_of_ne_zero h.2)

/-- Sequential transmission of the chunks over the GATT characteristic:
`canWrite` is whether the characteristic supports either write mode, `writeOk`
the outcome of each individual `writeValue...` call.  Returns the chunks whose
write was attempted and the result; the loop stops at the first throw. -/
def btSendChunks (writeOk : List Nat → Bool) (canWrite : Bool) :
    List (List Nat) → List (List Nat) × Except String Unit
  | [] => ([], .ok ())
  | ch :: rest =>
    if !canWrite then ([], .error "Characteristic does not support writing")
    else if writeOk ch then
      let (ws, r) := btSendChunks writeOk canWrite rest
      (ch :: ws, r)
    else (ch :: [], .error "write failed")

/-- Embeds `BluetoothPrinterConnection.print`: requires a characteristic
(`Bluetooth printer not connected`), splits the payload with the fixed chunk
size 20, sends the chunks sequentially, and wraps any throw from the loop into
`Bluetooth print failed: ...` (terminal for the whole send). -/
def btPrint (hasCharacteristic : Bool) (canWrite : Bool)
    (writeOk : List Nat → Bool) (data : List Nat) :
    List (List Nat) × Except String Unit :=
  if !hasCharacteristic then ([], .error "Bluetooth printer not connected")
  else
    match btSendChunks writeOk canWrite (chunkList 20 data) with
    | (ws, .ok _) => (ws, .ok ())
    | (ws, .error e) => (ws, .error ("Bluetooth print failed: " ++ e))

/-- A TCP-side event observed by the relay (`proxy-server.js`) while servicing
one forwarded payload. -/
inductive TcpEvent where
  | connectedEvt
  | dataEvt (bytes : List Nat)
  | closeEvt
  | errorEvt (msg : String)
  | timeoutEvt
deriving DecidableEq, Repr

/-- A JSON message the relay pushes back over the WebSocket. -/
inductive RelayMsg where
  | response (bytes : List Nat)
  | statusMsg (message : String)
  | errorMsg (message : String)
deriving DecidableEq, Repr

/-- Embeds the per-event handlers installed by `ws.on('message')` in
`proxy-server.js`: `data` forwards printer bytes, `close` reports completion,
`error` forwards the socket error message verbatim, `timeout` reports
`Connection timeout`. -/
def relayReply : TcpEvent → Option RelayMsg
  | .connectedEvt => none
  | .dataEvt bytes => some (.response bytes)
  | .closeEvt => some (.statusMsg "Print job completed")
  | .errorEvt msg => some (.errorMsg msg)
  | .timeoutEvt => some (.errorMsg "Connection timeout")

/-- Embeds `NetworkPrinterConnection.print`: throw when `isConnectedFlag` is
false; when the WebSocket is open, `socket.send(data)` — fire-and-forget, the
relay's outcome (`relayEvt`) is never read because the connection installs no
message handler; otherwise fall back to `printViaHTTP`, whose two `fetch`
responses are never checked (`no-cors`), failing only when both fetches
themselves throw. -/
def networkPrint (isConnectedFlag : Bool) (socketOpen : Bool)
    (relayEvt : TcpEvent) (primaryFetchOk : Bool) (fallbackFetchOk : Bool)
    (fallbackErr : String) : Except String Unit :=
  if !isConnectedFlag then .error "Network printer not connected"
  else if socketOpen then
    let _ := relayEvt
    .ok ()
  else if primaryFetchOk then .ok ()
  else if fallbackFetchOk then .ok ()
  else .error fallbackErr

/-! ## Helper lemmas -/

theorem lookupA_setA_self {α : Type} (m : List (String × α)) (k : String) (v : α) :
    lookupA (setA m k v) k = some v := by
  unfold lookupA setA
  by_cases hmem : m.any (fun p => p.fst = k)
  · rw [if_pos hmem]
    rw [List.find?_map]
    have hpred : ((fun p : String × α => decide (p.fst = k)) ∘
        (fun p : String × α => if p.fst = k then (k, v) else p)) =
        fun p : String × α => decide (p.fst = k) := by
      funext p
      by_cases hp : p.fst = k <;> simp [hp]
    rw [hpred]
    rcases List.any_eq_true.mp hmem with ⟨p0, hp0, hpk⟩
    cases hfind : List.find? (fun p : String × α => decide (p.fst = k)) m with
    | none =>
      have := List.find?_eq_none.mp hfind p0 hp0
      simp only [decide_eq_true_eq] at this hpk
      exact absurd hpk this
    | some r =>
      have hr := List.find?_some hfind
      simp only [decide_eq_true_eq] at hr
      simp [hr]
  · rw [if_neg hmem]
    rw [List.find?_append]
    have hnone : List.find? (fun p : String × α => decide (p.fst = k)) m = none := by
      rw [List.find?_eq_none]
      intro x hx
      have := (List.any_eq_true.not.mp hmem)
      push_neg at this
      simpa using this x hx
    simp [hnone, List.find?]

theorem lookupA_setA_ne {α : Type} (m : List (String × α)) (k k' : String) (v : α)
    (h : k' ≠ k) : lookupA (setA m k v) k' = lookupA m k' := by
  unfold lookupA setA
  by_cases hmem : m.any (fun p => p.fst = k)
  · rw [if_pos hmem]
    rw [List.find?_map]
    have hpred : ((fun p : String × α => decide (p.fst = k')) ∘
        (fun p : String × α => if p.fst = k then (k, v) else p)) =
        fun p : String × α => decide (p.fst = k') := by
      funext p
      by_cases hp : p.fst = k
      · simp [hp, Ne.symm h, hp ▸ (Ne.symm h)]
      · simp [hp]
    rw [hpred]
    cases hfind : List.find? (fun p : String × α => decide (p.fst = k')) m with
    | none => simp
    | some r =>
      have hr := List.find?_some hfind
      simp only [decide_eq_true_eq] at hr
      have hrk : r.fst ≠ k := by rw [hr]; exact h
      simp [hrk, Option.map_some]
  · rw [if_neg hmem]
    rw [List.find?_append]
    have hlast : List.find? (fun p : String × α => decide (p.fst = k')) [(k, v)] = none := by
      simp [List.find?, Ne.symm h]
    rw [hlast, Option.or_none]

/-! ## Example states used by witnesses -/

/-- A network printer config as in the spec scenario (host 192.168.1.100,
port 9100). -/
def cfgNetEx : PrinterConfig :=
  { name := "np", type := .network, ipAddress := some "192.168.1.100", port := some 9100 }

/-- Manager state with one registered, still disconnected printer. -/
def regEx : MState := (addPrinter MState.empty cfgNetEx 0 "ex").snd

/-- The id generated for that printer. -/
def idEx : String := (addPrinter MState.empty cfgNetEx 0 "ex").fst

/-- Manager state after a successful connect of that printer. -/
def connEx : MState := connectPrinter regEx idEx true 1

/-! ## Claims -/

/-- Claim C6: for a printer identity with no live session (no connection object
stored for it), `disconnectPrinter` is a no-op that never raises: the manager
state (printer set, connection map, statuses, queue) is unchanged, the result
does not depend on the transport `disconnect()` outcome (whose exception is
caught), and calling it twice equals calling it once. -/
theorem disconnect_on_disconnected_noop (m : MState) (id : String) (a b : Bool)
    (h : lookupA m.connections id = none) :
    disconnectPrinter m id a = m ∧
    disconnectPrinter m id a = disconnectPrinter m id b ∧
    disconnectPrinter (disconnectPrinter m id a) id b = disconnectPrinter m id a := by
  have key : ∀ c : Bool, disconnectPrinter m id c = m := by
    intro c
    unfold disconnectPrinter
    rw [h]
    cases lookupA m.printers id <;> rfl
  refine ⟨key a, ?_, ?_⟩
  · rw [key a, key b]
  · rw [key a, key b]

/-- Witness for C6: the no-op holds at a concrete state with one registered
printer and an id that has no connection object. -/
theorem disconnect_on_disconnected_noop_witness :
    lookupA regEx.connections idEx = none ∧
    (disconnectPrinter regEx idEx true = regEx ∧
     disconnectPrinter regEx idEx true = disconnectPrinter regEx idEx false ∧
     disconnectPrinter (disconnectPrinter regEx idEx true) idEx false =
       disconnectPrinter regEx idEx true) :=
  ⟨by decide, disconnect_on_disconnected_noop regEx idEx true false (by decide)⟩

/-- Claim C7 counterexample: `addPrinter` performs no per-transport validation
and does not guarantee fresh ids.  A network config with neither host nor port
is accepted (the printer is registered; there is no InvalidConfig failure — the
operation cannot fail at all), refuting `fails with InvalidConfig when they are
missing`; and two registrations that draw the same timestamp and random token
produce the same id, the second silently replacing the first, refuting
`generates a fresh id never used by another identity`. -/
theorem addPrinter_counterexample :
    (let cfg : PrinterConfig := { name := "bad", type := .network };
     let r := addPrinter MState.empty cfg 0 "aaa";
     cfg.ipAddress = none ∧ cfg.port = none ∧
     lookupA r.snd.printers r.fst =
       some { id := "network_0_aaa", name := "bad", type := .network,
              status := .disconnected, config := cfg }) ∧
    (let cfg : PrinterConfig := { name := "bad", type := .network };
     let r1 := addPrinter MState.empty cfg 0 "aaa";
     let r2 := addPrinter r1.snd cfg 0 "aaa";
     r2.fst = r1.fst ∧ r2.snd.printers.length = 1) := by
  decide

/-- Claim C7 (amended): `addPrinter` accepts any config without validation
(it has no failure outcome; required per-transport fields are not checked),
derives the id deterministically from the transport kind, the clock value and
the random token (uniqueness is not checked against existing identities), and
registers the new identity with initial connection state `disconnected` and the
given config stored unchanged. -/
theorem addPrinter_registers_disconnected (m : MState) (config : PrinterConfig)
    (now : Nat) (rand : String) :
    (addPrinter m config now rand).fst =
      config.type.str ++ "_" ++ toString now ++ "_" ++ rand ∧
    lookupA (addPrinter m config now rand).snd.printers
        (addPrinter m config now rand).fst =
      some { id := config.type.str ++ "_" ++ toString now ++ "_" ++ rand,
             name := config.name, type := config.type,
             status := .disconnected, config := config } ∧
    (∀ k, k ≠ (addPrinter m config now rand).fst →
      lookupA (addPrinter m config now rand).snd.printers k = lookupA m.printers k) := by
  refine ⟨rfl, ?_, ?_⟩
  · exact lookupA_setA_self ..
  · intro k hk
    exact lookupA_setA_ne _ _ _ _ hk

theorem lookupA_load_not_mem (saved : List PrinterDevice)
    (acc : List (String × PrinterDevice)) (k : String)
    (h : ∀ p ∈ saved, p.id ≠ k) :
    lookupA (saved.foldl (fun a p => setA a p.id { p with status := .disconnected }) acc) k
      = lookupA acc k := by
  induction saved generalizing acc with
  | nil => rfl
  | cons q rest ih =>
    simp only [List.foldl_cons]
    rw [ih _ (fun p hp => h p (List.mem_cons_of_mem _ hp))]
    exact lookupA_setA_ne acc q.id k _ (Ne.symm (h q (List.mem_cons_self _ _)))

/-- Claim C9: reloading a persisted printer list resets every identity's
connection status to `disconnected` regardless of the status stored at save
time, while preserving the identity itself (id, name, type, config are those of
the saved record; only `status` is overwritten). -/
theorem load_resets_status (saved : List PrinterDevice)
    (hnodup : (saved.map PrinterDevice.id).Nodup) :
    ∀ p ∈ saved, lookupA (loadSavedPrinters saved) p.id =
      some { p with status := .disconnected } := by
  unfold loadSavedPrinters
  suffices h : ∀ acc : List (String × PrinterDevice),
      (saved.map PrinterDevice.id).Nodup →
      ∀ p ∈ saved,
        lookupA (saved.foldl (fun a q => setA a q.id { q with status := .disconnected }) acc) p.id
          = some { p with status := .disconnected } from h [] hnodup
  clear hnodup
  induction saved with
  | nil => intro acc _ p hp; exact absurd hp (List.not_mem_nil p)
  | cons q rest ih =>
    intro acc hnodup p hp
    simp only [List.map_cons, List.nodup_cons] at hnodup
    simp only [List.foldl_cons]
    rcases List.mem_cons.mp hp with rfl | hp'
    · have hnm : ∀ r ∈ rest, r.id ≠ p.id := by
        intro r hr heq
        exact hnodup.1 (heq ▸ List.mem_map_of_mem PrinterDevice.id hr)
      rw [lookupA_load_not_mem rest _ p.id hnm]
      exact lookupA_setA_self ..
    · exact ih _ hnodup.2 p hp'

/-- Two saved printer records with runtime statuses, for the C9 witness. -/
def savedEx : List PrinterDevice :=
  [{ id := "usb_1_aa", name := "u", type := .usb, status := .connected,
     config := { name := "u", type := .usb } },
   { id := "network_2_bb", name := "n", type := .network, status := .error,
     config := cfgNetEx }]

/-- Witness for C9 at a concrete saved list whose statuses were `connected` and
`error` at save time. -/
theorem load_resets_status_witness :
    (savedEx.map PrinterDevice.id).Nodup ∧
    (∀ p ∈ savedEx, lookupA (loadSavedPrinters savedEx) p.id =
      some { p with status := .disconnected }) :=
  ⟨by decide, load_resets_status savedEx (by decide)⟩

/-- Claim C2: when no target id resolves, or the resolved identity has no
registered printer or stored connection, or its connection is not live,
`print` throws before any job is created and before the driver is invoked:
the manager state (print queue and all printer states included) is unchanged,
the result is an error, no job status was ever assigned, and the transport
`print` was called zero times. -/
theorem print_rejects_before_job (m : MState) (data : List Nat)
    (printerId : Option String) (now : Nat) (rand : String)
    (dres : Except String Unit)
    (h : resolveTarget m printerId = none ∨
      ∃ t, resolveTarget m printerId = some t ∧
        (lookupA m.printers t = none ∨ lookupA m.connections t = none ∨
         ∃ sid, lookupA m.connections t = some sid ∧ sessionLive m.sessions sid = false)) :
    (printOp m data printerId now rand dres).state = m ∧
    (∃ e, (printOp m data printerId now rand dres).result = Except.error e) ∧
    (printOp m data printerId now rand dres).trace = [] ∧
    (printOp m data printerId now rand dres).driverCalls = 0 := by
  unfold printOp
  rcases h with h | ⟨t, ht, hcase⟩
  · simp only [h]
    simp
  · simp only [ht]
    rcases hcase with hp | hc | ⟨sid, hs, hlive⟩
    · simp only [hp]
      cases lookupA m.connections t <;> simp
    · simp only [hc]
      cases lookupA m.printers t <;> simp
    · simp only [hs]
      cases hp : lookupA m.printers t with
      | none => simp
      | some printer => simp [hlive]

/-- Witness for C2: at a concrete state with one registered but not connected
printer, targeted explicitly, `print` fails leaving the state untouched. -/
theorem print_rejects_before_job_witness :
    (resolveTarget regEx (some idEx) = none ∨
      ∃ t, resolveTarget regEx (some idEx) = some t ∧
        (lookupA regEx.printers t = none ∨ lookupA regEx.connections t = none ∨
         ∃ sid, lookupA regEx.connections t = some sid ∧
           sessionLive regEx.sessions sid = false)) ∧
    ((printOp regEx [1, 2, 3] (some idEx) 9 "w" (Except.ok ())).state = regEx ∧
     (∃ e, (printOp regEx [1, 2, 3] (some idEx) 9 "w" (Except.ok ())).result =
       Except.error e) ∧
     (printOp regEx [1, 2, 3] (some idEx) 9 "w" (Except.ok ())).trace = [] ∧
     (printOp regEx [1, 2, 3] (some idEx) 9 "w" (Except.ok ())).driverCalls = 0) :=
  ⟨Or.inr ⟨idEx, rfl, Or.inr (Or.inl (by decide))⟩,
   print_rejects_before_job regEx [1, 2, 3] (some idEx) 9 "w" (Except.ok ())
     (Or.inr ⟨idEx, rfl, Or.inr (Or.inl (by decide))⟩)⟩

/-- Claim C8: a submitted job's status follows `pending`, then `printing` (the
source's name for the spec's `sending`, assigned immediately before delegating
to the transport driver), then exactly one of `completed` or `failed` as
determined by the driver's result; the sequence is strictly increasing in the
lifecycle order (no status ever regresses), and the driver is invoked exactly
once — a failed job is never retried. -/
theorem print_job_lifecycle (m : MState) (data : List Nat)
    (printerId : Option String) (now : Nat) (rand : String)
    (dres : Except String Unit) (t : String) (sid : Nat)
    (ht : resolveTarget m printerId = some t)
    (hp : (lookupA m.printers t).isSome = true)
    (hc : lookupA m.connections t = some sid)
    (hl : sessionLive m.sessions sid = true) :
    (printOp m data printerId now rand dres).driverCalls = 1 ∧
    (dres = Except.ok () →
      (printOp m data printerId now rand dres).trace =
        [JobStatus.pending, JobStatus.printing, JobStatus.completed] ∧
      (printOp m data printerId now rand dres).result =
        Except.ok ("job_" ++ toString now ++ "_" ++ rand)) ∧
    (∀ e, dres = Except.error e →
      (printOp m data printerId now rand dres).trace =
        [JobStatus.pending, JobStatus.printing, JobStatus.failed] ∧
      (printOp m data printerId now rand dres).result = Except.error e) ∧
    List.Chain' (fun a b => JobStatus.rank a < JobStatus.rank b)
      (printOp m data printerId now rand dres).trace := by
  cases hpl : lookupA m.printers t with
  | none => rw [hpl] at hp; simp at hp
  | some printer =>
    unfold printOp
    simp only [ht, hpl, hc, hl, if_true]
    cases dres with
    | ok u =>
      cases u
      refine ⟨rfl, ?_, ?_, ?_⟩
      · intro _
        exact ⟨rfl, rfl⟩
      · intro e he
        exact Except.noConfusion he
      · simp [List.Chain', JobStatus.rank]
    | error e =>
      refine ⟨rfl, ?_, ?_, ?_⟩
      · intro he
        exact Except.noConfusion he
      · intro e' he'
        cases he'
        exact ⟨rfl, rfl⟩
      · simp [List.Chain', JobStatus.rank]

/-- Witness for C8 at a concrete connected printer with a successful driver
outcome. -/
theorem print_job_lifecycle_witness :
    (resolveTarget connEx (some idEx) = some idEx ∧
     (lookupA connEx.printers idEx).isSome = true ∧
     lookupA connEx.connections idEx = some 0 ∧
     sessionLive connEx.sessions 0 = true) ∧
    ((printOp connEx [1, 2] (some idEx) 9 "w" (Except.ok ())).driverCalls = 1 ∧
     ((Except.ok () : Except String Unit) = Except.ok () →
       (printOp connEx [1, 2] (some idEx) 9 "w" (Except.ok ())).trace =
         [JobStatus.pending, JobStatus.printing, JobStatus.completed] ∧
       (printOp connEx [1, 2] (some idEx) 9 "w" (Except.ok ())).result =
         Except.ok ("job_" ++ toString 9 ++ "_" ++ "w")) ∧
     (∀ e, (Except.ok () : Except String Unit) = Except.error e →
       (printOp connEx [1, 2] (some idEx) 9 "w" (Except.ok ())).trace =
         [JobStatus.pending, JobStatus.printing, JobStatus.failed] ∧
       (printOp connEx [1, 2] (some idEx) 9 "w" (Except.ok ())).result =
         Except.error e) ∧
     List.Chain' (fun a b => JobStatus.rank a < JobStatus.rank b)
       (printOp connEx [1, 2] (some idEx) 9 "w" (Except.ok ())).trace) :=
  ⟨⟨by decide, by decide, by decide, by decide⟩,
   print_job_lifecycle connEx [1, 2] (some idEx) 9 "w" (Except.ok ()) idEx 0
     (by decide) (by decide) (by decide) (by decide)⟩

/-- Claim C1 counterexample: the guard in `connectPrinter` returns early only
for `status === connected`.  Starting from one registered printer, run the
synchronous prefix of a first `connectPrinter` (reaching its `await`, printer
now `connecting`), then a second `connectPrinter` on the same id: the second
call does not return the existing state — it creates a second connection
object (session serial 1; two objects ever created) — and after both transport
connects succeed, two live sessions exist for the one printer id. -/
theorem connect_second_session_counterexample :
    ((lookupA (connectStep1 regEx idEx).snd.printers idEx).map PrinterDevice.status =
       some PStatus.connecting) ∧
    (connectStep1 (connectStep1 regEx idEx).snd idEx).fst = ConnectStart.started 1 ∧
    (connectStep1 (connectStep1 regEx idEx).snd idEx).snd.nextSession = 2 ∧
    liveSessionsFor
      (connectStep2
        (connectStep2 (connectStep1 (connectStep1 regEx idEx).snd idEx).snd idEx 0 true 1)
        idEx 1 true 2) idEx = 2 := by
  decide

/-- Claim C1 (amended): a connect call on an identity whose state is
`connected` creates no session and returns the existing state unchanged; but
the guard does not cover `connecting`: a connect call on an identity in
`connecting` state proceeds, creating a fresh second connection object, so two
overlapping connects on one identity can yield two live TransportSessions. -/
theorem connect_guard_only_connected (m : MState) (id : String) (p : PrinterDevice)
    (hp : lookupA m.printers id = some p) :
    (p.status = PStatus.connected →
      connectStep1 m id = (ConnectStart.alreadyConnected, m)) ∧
    (p.status = PStatus.connecting →
      (connectStep1 m id).fst = ConnectStart.started m.nextSession ∧
      (connectStep1 m id).snd.nextSession = m.nextSession + 1 ∧
      (connectStep1 m id).snd.sessions =
        m.sessions ++ [{ sid := m.nextSession, printerId := id, live := false }]) := by
  unfold connectStep1
  simp only [hp]
  constructor
  · intro h
    simp [h]
  · intro h
    rw [h]
    simp

/-- Concrete device record for the C1 witness: the printer stored in `connEx`. -/
def devEx : PrinterDevice :=
  { id := "network_0_ex", name := "np", type := .network, status := .connected,
    lastUsed := some 1, config := cfgNetEx }

/-- Witness for C1 (amended) at the connected concrete state. -/
theorem connect_guard_only_connected_witness :
    lookupA connEx.printers idEx = some devEx ∧
    ((devEx.status = PStatus.connected →
       connectStep1 connEx idEx = (ConnectStart.alreadyConnected, connEx)) ∧
     (devEx.status = PStatus.connecting →
       (connectStep1 connEx idEx).fst = ConnectStart.started connEx.nextSession ∧
       (connectStep1 connEx idEx).snd.nextSession = connEx.nextSession + 1 ∧
       (connectStep1 connEx idEx).snd.sessions =
         connEx.sessions ++ [{ sid := connEx.nextSession, printerId := idEx, live := false }])) :=
  ⟨by decide, connect_guard_only_connected connEx idEx devEx (by decide)⟩

/-- Claim C3 counterexample: with the driver connected and the WebSocket open,
`NetworkPrinterConnection.print` resolves successfully whatever the relay's
TCP outcome — a connection-refused error and a timeout at the relay both leave
the send reporting success, so relay errors are swallowed rather than mapped
to a TransportFailure of the send. -/
theorem network_print_swallows_relay_errors :
    networkPrint true true (TcpEvent.errorEvt "connect ECONNREFUSED 192.168.1.100:9100")
      true true "" = Except.ok () ∧
    networkPrint true true TcpEvent.timeoutEvt true true "" = Except.ok () := by
  exact ⟨rfl, rfl⟩

/-- Claim C3 (amended): the relay itself reports each failure kind distinctly
over the WebSocket — a socket error is forwarded with its message verbatim and
a timeout as `Connection timeout` — but the Network driver never consumes
these messages (it installs no message handler): its send over an open socket
resolves successfully for every relay outcome, so no relay failure surfaces as
a failed send. -/
theorem relay_reports_driver_ignores (msg : String) (evt : TcpEvent) :
    relayReply (TcpEvent.errorEvt msg) = some (RelayMsg.errorMsg msg) ∧
    relayReply TcpEvent.timeoutEvt = some (RelayMsg.errorMsg "Connection timeout") ∧
    networkPrint true true evt true true "" = Except.ok () := by
  exact ⟨rfl, rfl, rfl⟩

/-- Claim C5: `USBPrinterConnection.connect`, on the path where no interface
can be claimed, throws `Could not claim any interface` but never calls
`device.close()`: the opened device handle is still held when connect fails.
The claim (and the spec's release-on-every-exit-path requirement) says the
handle is released; this theorem evaluates the embedded connect at the failing
input — a device with candidate interfaces 0 and 1 where every
`claimInterface` call fails — and shows the error together with the retained
open handle. -/
theorem usb_connect_leaves_device_open :
    usbConnect [(0, false), (1, false)] (fun _ => false) =
      (Except.error "Could not claim any interface",
       { opened := true, claimed := [] }) := by
  rfl

theorem chunkList_cons (c : Nat) (l : List Nat) (hc : c ≠ 0) (hl : l ≠ []) :
    chunkList c l = l.take c :: chunkList c (l.drop c) := by
  rw [chunkList]
  rw [dif_neg]
  push_neg
  exact ⟨hl, hc⟩

theorem chunkList_length (c : Nat) (hc : 0 < c) (l : List Nat) :
    (chunkList c l).length = (l.length + c - 1) / c := by
  by_cases hl : l = []
  · subst hl
    rw [chunkList, dif_pos (Or.inl rfl)]
    simp [Nat.div_eq_of_lt (show c - 1 < c by omega)]
  · have hn : l.length ≠ 0 := fun h0 => hl (List.length_eq_zero.mp h0)
    have ih := chunkList_length c hc (l.drop c)
    rw [chunkList_cons c l (Nat.pos_iff_ne_zero.mp hc) hl, List.length_cons, ih,
        List.length_drop]
    have h1 : l.length + c - 1 = (l.length - 1) + c := by omega
    rw [h1, Nat.add_div_right _ hc]
    rcases le_or_lt c l.length with hcn | hcn
    · have h2 : l.length - c + c - 1 = l.length - 1 := by omega
      rw [h2]
    · have h2 : l.length - c = 0 := by omega
      rw [h2]
      have h3 : (0 + c - 1) / c = 0 := Nat.div_eq_of_lt (by omega)
      have h4 : (l.length - 1) / c = 0 := Nat.div_eq_of_lt (by omega)
      rw [h3, h4]
termination_by l.length
decreasing_by
  have hn : l.length ≠ 0 := fun h0 => hl (List.length_eq_zero.mp h0)
  simp only [List.length_drop]
  omega

theorem chunkList_sizes (c : Nat) (l : List Nat) :
    ∀ ch ∈ chunkList c l, ch.length ≤ c := by
  intro ch hch
  by_cases h : l = [] ∨ c = 0
  · rw [chunkList, dif_pos h] at hch
    exact absurd hch (List.not_mem_nil ch)
  · push_neg at h
    rw [chunkList_cons c l h.2 h.1] at hch
    rcases List.mem_cons.mp hch with rfl | hch'
    · rw [List.length_take]
      omega
    · exact chunkList_sizes c (l.drop c) ch hch'
termination_by l.length
decreasing_by
  push_neg at h
  obtain ⟨h1, h2⟩ := h
  have hn : l.length ≠ 0 := fun h0 => h1 (List.length_eq_zero.mp h0)
  simp only [List.length_drop]
  omega

theorem chunkList_flatten (c : Nat) (l : List Nat) (hc : c ≠ 0) :
    (chunkList c l).flatten = l := by
  by_cases hl : l = []
  · subst hl
    rw [chunkList, dif_pos (Or.inl rfl)]
    rfl
  · rw [chunkList_cons c l hc hl, List.flatten_cons,
        chunkList_flatten c (l.drop c) hc, List.take_append_drop]
termination_by l.length
decreasing_by
  have hn : l.length ≠ 0 := fun h0 => hl (List.length_eq_zero.mp h0)
  simp only [List.length_drop]
  have hc0 : c ≠ 0 := hc
  omega

theorem btSendChunks_all_ok (writeOk : List Nat → Bool) (chunks : List (List Nat))
    (h : ∀ ch ∈ chunks, writeOk ch = true) :
    btSendChunks writeOk true chunks = (chunks, Except.ok ()) := by
  induction chunks with
  | nil => rfl
  | cons ch rest ih =>
    unfold btSendChunks
    rw [h ch (List.mem_cons_self _ _)]
    rw [ih (fun c hc => h c (List.mem_cons_of_mem _ hc))]
    simp

theorem btSendChunks_fail (writeOk : List Nat → Bool) (chunks : List (List Nat))
    (h : ∃ ch ∈ chunks, writeOk ch = false) :
    ∃ e, (btSendChunks writeOk true chunks).snd = Except.error e := by
  induction chunks with
  | nil => simp at h
  | cons ch rest ih =>
    by_cases hch : writeOk ch
    · rcases h with ⟨ch0, hm, hf⟩
      rcases List.mem_cons.mp hm with rfl | hm'
      · rw [hch] at hf
        cases hf
      · obtain ⟨e, he⟩ := ih ⟨ch0, hm', hf⟩
        refine ⟨e, ?_⟩
        rcases hb : btSendChunks writeOk true rest with ⟨ws, r⟩
        rw [hb] at he
        unfold btSendChunks
        rw [hch, hb]
        simpa using he
    · refine ⟨"write failed", ?_⟩
      unfold btSendChunks
      rw [Bool.eq_false_iff.mpr hch]
      simp

/-- Claim C4: for a payload of size S and chunk size C, the Bluetooth send
loop issues exactly ceil(S/C) writes (the chunk list it iterates has that
length), each chunk is at most C bytes, and the chunks concatenate back to the
original payload; with the source's fixed chunk size 20, when every chunk
write succeeds the attempted writes are exactly that chunk list with a
successful result, and any chunk write failure makes the whole send fail (no
partial-success result). -/
theorem bluetooth_chunked_send (c : Nat) (data : List Nat) (hc : 0 < c) :
    (chunkList c data).length = (data.length + c - 1) / c ∧
    (∀ ch ∈ chunkList c data, ch.length ≤ c) ∧
    (chunkList c data).flatten = data ∧
    (∀ writeOk : List Nat → Bool,
      (∀ ch ∈ chunkList 20 data, writeOk ch = true) →
        btPrint true true writeOk data = (chunkList 20 data, Except.ok ())) ∧
    (∀ writeOk : List Nat → Bool,
      (∃ ch ∈ chunkList 20 data, writeOk ch = false) →
        ∃ e, (btPrint true true writeOk data).snd = Except.error e) := by
  refine ⟨chunkList_length c hc data, chunkList_sizes c data,
    chunkList_flatten c data (Nat.pos_iff_ne_zero.mp hc), ?_, ?_⟩
  · intro writeOk hall
    unfold btPrint
    rw [btSendChunks_all_ok writeOk _ hall]
    rfl
  · intro writeOk hfail
    obtain ⟨e, he⟩ := btSendChunks_fail writeOk _ hfail
    rcases hb : btSendChunks writeOk true (chunkList 20 data) with ⟨ws, r⟩
    rw [hb] at he
    cases r with
    | ok u => exact absurd he (by simp)
    | error e2 =>
      refine ⟨"Bluetooth print failed: " ++ e2, ?_⟩
      unfold btPrint
      rw [hb]
      rfl

/-- Witness for C4 at chunk size 2 and a five-byte payload (three chunks). -/
theorem bluetooth_chunked_send_witness :
    0 < 2 ∧
    ((chunkList 2 [1, 2, 3, 4, 5]).length = (([1, 2, 3, 4, 5] : List Nat).length + 2 - 1) / 2 ∧
     (∀ ch ∈ chunkList 2 [1, 2, 3, 4, 5], ch.length ≤ 2) ∧
     (chunkList 2 [1, 2, 3, 4, 5]).flatten = [1, 2, 3, 4, 5] ∧
     (∀ writeOk : List Nat → Bool,
       (∀ ch ∈ chunkList 20 [1, 2, 3, 4, 5], writeOk ch = true) →
         btPrint true true writeOk [1, 2, 3, 4, 5] =
           (chunkList 20 [1, 2, 3, 4, 5], Except.ok ())) ∧
     (∀ writeOk : List Nat → Bool,
       (∃ ch ∈ chunkList 20 [1, 2, 3, 4, 5], writeOk ch = false) →
         ∃ e, (btPrint true true writeOk [1, 2, 3, 4, 5]).snd = Except.error e)) :=
  ⟨by decide, bluetooth_chunked_send 2 [1, 2, 3, 4, 5] (by decide)⟩

/-- Claim C10: `getPrintQueue` returns a fresh copy of the queue: the returned
array is a different heap object than the manager's `printQueue`, it holds the
same elements, and overwriting the returned array's contents with any list
(adding or removing elements) leaves the manager's internal queue unchanged. -/
theorem getPrintQueue_fresh_copy (heap : List (List PrintJob)) (qref : Nat)
    (h : qref < heap.length) :
    (getPrintQueueRef heap qref).snd ≠ qref ∧
    readRef (getPrintQueueRef heap qref).fst (getPrintQueueRef heap qref).snd =
      readRef heap qref ∧
    (∀ v, readRef (writeRef (getPrintQueueRef heap qref).fst
        (getPrintQueueRef heap qref).snd v) qref = readRef heap qref) := by
  refine ⟨by show heap.length ≠ qref; omega, ?_, ?_⟩
  · show readRef (heap ++ [(heap.get? qref).getD []]) heap.length = readRef heap qref
    unfold readRef
    simp
  · intro v
    show readRef ((heap ++ [(heap.get? qref).getD []]).set heap.length v) qref =
      readRef heap qref
    unfold readRef
    rw [List.get?_set_ne _ _ (by omega : heap.length ≠ qref), List.get?_append h]

/-- A one-job queue heap for the C10 witness: the manager's queue lives at
reference 0. -/
def heapEx : List (List PrintJob) :=
  [[{ id := "j1", printerId := "network_0_ex", data := [1, 2], timestamp := 0,
      status := JobStatus.pending }]]

/-- Witness for C10 at the concrete one-array heap. -/
theorem getPrintQueue_fresh_copy_witness :
    0 < heapEx.length ∧
    ((getPrintQueueRef heapEx 0).snd ≠ 0 ∧
     readRef (getPrintQueueRef heapEx 0).fst (getPrintQueueRef heapEx 0).snd =
       readRef heapEx 0 ∧
     (∀ v, readRef (writeRef (getPrintQueueRef heapEx 0).fst
         (getPrintQueueRef heapEx 0).snd v) 0 = readRef heapEx 0)) :=
  ⟨by decide, getPrintQueue_fresh_copy heapEx 0 (by decide)⟩
